import Mathlib

/-!
Verification of the crash-report submission pipeline of `antenna/breakpad_resource.py`
(module `BreakpadSubmitterResource` together with `SaveQueue`).

The Python code is embedded shallowly:

* Python dicts become association lists with first-match lookup and replace-in-place
  update (`PyDict.get?` / `PyDict.set`), which coincides with Python dict semantics
  because every dict here is built from the empty dict by item assignment.
* The heterogeneous values stored in a raw crash dict become the inductive `Value`.
* External collaborators that live outside `src/` (the `zlib` gzip decompressor, the
  `cgi.FieldStorage` multipart parser, `hashlib.md5`, the pluggable `Throttler`, and
  ISO timestamp formatting) are passed in as an explicit record of functions (`Deps`).
* Metric emission (`self.mymetrics.incr` / `.histogram` / `.timing`) becomes an
  explicit list of `Event`s returned alongside each result, in emission order.
* A Python exception escaping a function is modelled by an `Option` result (`none`).
-/

/-- Heterogeneous values a raw-crash dict can hold: text fields, the integers written
back by throttling, byte blobs, the nested `dump_checksums` dict, and the float
timestamp (modelled as an opaque tick). -/
inductive Value where
  | vstr (s : String)
  | vint (n : Int)
  | vbytes (b : List Nat)
  | vmap (m : List (String × String))
  | vtime (t : Nat)
deriving DecidableEq

/-- A raw-crash dict: string keys to heterogeneous values. -/
abbrev Dict := List (String × Value)

/-- The dumps dict: dump name to byte blob. -/
abbrev Dumps := List (String × List Nat)

/-- The nested `dump_checksums` dict: dump name to hex digest text. -/
abbrev SMap := List (String × String)

namespace PyDict

/-- Python dict lookup `d[k]` / `d.get(k)`: first (unique) binding for the key. -/
def get? {α : Type} : List (String × α) → String → Option α
  | [], _ => none
  | p :: t, k => if p.1 = k then some p.2 else get? t k

/-- Python dict item assignment `d[k] = v`: replace the binding in place if the key is
present, else append it, preserving insertion order. -/
def set {α : Type} : List (String × α) → String → α → List (String × α)
  | [], k, v => [(k, v)]
  | p :: t, k, v => if p.1 = k then (k, v) :: t else p :: set t k v

end PyDict

/-! ### Constants and helpers from modules of this repository not under `src/` -/

/-- Modelled from the spec: the throttle decisions `ACCEPT`/`DEFER`/`REJECT` are imported
from `antenna/throttler.py`, which is not under `src/`. The spec's data-model table fixes
the integer decision encoding `0 = ACCEPT, 1 = DEFER`; `REJECT` is the remaining distinct
decision and only its distinctness matters here. -/
def ACCEPT : Int := 0

/-- Modelled from the spec: see `ACCEPT`. -/
def DEFER : Int := 1

/-- Modelled from the spec: see `ACCEPT`. -/
def REJECT : Int := 2

/-- Modelled from the spec: `de_null` is imported from `antenna/util.py`, which is not
under `src/`. Per the spec it "removes all U+0000 code points from the text". -/
def de_null (s : String) : String :=
  String.mk (s.data.filter (fun c => c ≠ Char.ofNat 0))

/-- Hex character for a nibble, lowercase. -/
def hexChar (n : Nat) : Char :=
  if n < 10 then Char.ofNat (48 + n) else Char.ofNat (87 + n % 16)

/-- Big-endian fixed-width hex rendering of a number (width `k`). -/
def hexPad : Nat → Nat → List Char
  | 0, _ => []
  | k + 1, n => hexPad k (n / 16) ++ [hexChar (n % 16)]

/-- Big-endian fixed-width decimal rendering of a number (width `k`). -/
def decPad : Nat → Nat → List Char
  | 0, _ => []
  | k + 1, n => decPad k (n / 10) ++ [Char.ofNat (48 + n % 10)]

/-- Modelled from the spec: `create_crash_id` is imported from `antenna/util.py`, which is
not under `src/`. Per the spec (§4.2) it returns an RFC-4122-shaped 36-character lowercase
id whose tail carries a single digit derived from the throttle decision followed by a date
derived from the timestamp; the random part is modelled by an explicit `entropy` input and
the date by the low decimal digits of the timestamp tick. -/
def create_crash_id (entropy : Nat) (now : Nat) (throttle_result : Int) : String :=
  String.mk
    (hexPad 8 entropy ++ '-' :: hexPad 4 (entropy / 16 ^ 8) ++
      '-' :: hexPad 4 (entropy / 16 ^ 12) ++ '-' :: hexPad 4 (entropy / 16 ^ 16) ++
      '-' :: hexPad 5 (entropy / 16 ^ 20) ++
      Char.ofNat (48 + throttle_result.toNat % 10) :: decPad 6 now)

/-- Python `int(x)` applied to a raw-crash value, `none` meaning the call raises.
Strings and byte strings are parsed as optionally signed decimal numerals surrounded by
optional whitespace; an int is returned as is. The `vmap` case would raise `TypeError`
(not caught by the code's `except ValueError`) and the `vtime` case would truncate the
float; neither is reachable at the call sites, which only ever receive parser-produced
text values or the write-backs of `get_throttle_result`. -/
def pyIntChars (l : List Char) : Option Int :=
  let t := (l.dropWhile Char.isWhitespace).reverse.dropWhile Char.isWhitespace |>.reverse
  match t with
  | [] => none
  | c :: rest =>
    let digits? : List Char → Option Int := fun ds =>
      if ds ≠ [] ∧ ds.all (fun d => 48 ≤ d.toNat ∧ d.toNat ≤ 57) then
        some (Int.ofNat (ds.foldl (fun a d => a * 10 + (d.toNat - 48)) 0))
      else none
    if c = '-' then (digits? rest).map (fun n => -n)
    else if c = '+' then digits? rest
    else digits? (c :: rest)

/-- Python `int(x)` on a `Value`; see `pyIntChars`. -/
def pyIntV : Value → Option Int
  | .vstr s => pyIntChars s.data
  | .vint n => some n
  | .vbytes b => pyIntChars (b.map Char.ofNat)
  | .vmap _ => none
  | .vtime t => some (Int.ofNat t)

/-- Python `'%s' % v` string interpolation of a raw-crash value. Only the `vstr` case is
reachable where this is used (the crash id is always a string). -/
def fmtValue : Value → String
  | .vstr s => s
  | .vint n => toString n
  | .vtime t => toString t
  | .vbytes _ => ""
  | .vmap _ => ""

/-- Python `s.strip(c)` for a single character: drop it from both ends. -/
def pyStrip (s : String) (c : Char) : String :=
  String.mk (((s.data.dropWhile (· = c)).reverse.dropWhile (· = c)).reverse)

/-! ### The HTTP request, the multipart form model, and the external collaborators -/

/-- Metric emissions, in emission order. The float value of a `timing` sample is elided. -/
inductive Event where
  | incr (name : String)
  | histogram (name : String) (value : Nat)
  | gauge (name : String) (value : Nat)
  | timing (name : String)
deriving DecidableEq

/-- The value of one `cgi.FieldStorage` item: text for ordinary fields, bytes for file
uploads (`isinstance(fs_item.value, bytes)` distinguishes the two in the source). -/
inductive FSValue where
  | text (s : String)
  | bytes (b : List Nat)
deriving DecidableEq

/-- One entry of `cgi.FieldStorage(...).list`: the part's name, its declared
content-type (`fs_item.type`, possibly absent or empty), and its decoded value. -/
structure FSItem where
  name : String
  ftype : Option String
  value : FSValue
deriving DecidableEq

/-- The slice of a Falcon `Request` the handler reads: `req.content_type`,
`req.content_length`, `req.env['HTTP_CONTENT_ENCODING']`, and the body stream. -/
structure Req where
  content_type : Option String
  content_length : Option Nat
  content_encoding : Option String
  body : List Nat

/-- External collaborators, none of which live under `src/`: `hashlib.md5(...).hexdigest()`,
`zlib.decompress(..., 16 + MAX_WBITS)` (`none` = `zlib.error`), the item list produced by
`cgi.FieldStorage(fp, environ, keep_blank_values=1)` for a given byte payload (with
`keep_blank_values=1`, blank-valued parts are kept in the list), the pluggable
`Throttler.throttle`, and `utc_now().isoformat()`. -/
structure Deps where
  md5_hex : List Nat → String
  gunzip : List Nat → Option (List Nat)
  parseForm : List Nat → List FSItem
  throttle : Dict → Int × String × Int
  iso : Nat → String

/-! ### `extract_payload` (breakpad_resource.py lines 170-265) -/

/-- Split at the first `;` only: Python `s.split(';', 1)`. -/
def splitSemiOnce : List Char → List Char × Option (List Char)
  | [] => ([], none)
  | c :: t =>
    if c = ';' then ([], some t)
    else
      let r := splitSemiOnce t
      (c :: r.1, r.2)

/-- Python `s.strip()`: whitespace off both ends (approximated by `Char.isWhitespace`,
which covers the ASCII whitespace Python strips in the headers seen here). -/
def pyStripChars (l : List Char) : List Char :=
  ((l.dropWhile Char.isWhitespace).reverse.dropWhile Char.isWhitespace).reverse

/-- `[part.strip() for part in req.content_type.split(';', 1)]`. -/
def contentTypeParts (s : String) : List String :=
  match splitSemiOnce s.data with
  | (a, none) => [String.mk (pyStripChars a)]
  | (a, some b) => [String.mk (pyStripChars a), String.mk (pyStripChars b)]

/-- The negation of the early return on lines 194-198: the content type splits into
exactly two parts, the first is `multipart/form-data` and the second starts with
`boundary=`. -/
def ctShapeOk (s : String) : Bool :=
  match contentTypeParts s with
  | [a, b] => a = "multipart/form-data" && List.isPrefixOf "boundary=".data b.data
  | _ => false

/-- The dump test on line 251: `fs_item.type and (fs_item.type.startswith(
'application/octet-stream') or isinstance(fs_item.value, bytes))`, with Python
truthiness of the type string (absent or empty is falsy). -/
def isDumpItem (it : FSItem) : Bool :=
  match it.ftype with
  | none => false
  | some t =>
    !(t = "") &&
      (List.isPrefixOf "application/octet-stream".data t.data ||
        (match it.value with | .bytes _ => true | .text _ => false))

/-- `raw_crash.setdefault('dump_checksums', {})[fs_item.name] = checksum` (line 259).
The `dump_checksums` key is only ever written here, starting from the empty dict, so it
always holds a nested dict; on any other value `setdefault` would hand back a non-dict
and the item assignment would raise, which is unreachable. -/
def setChecksum (rc : Dict) (n chk : String) : Dict :=
  match PyDict.get? rc "dump_checksums" with
  | some (Value.vmap m) => PyDict.set rc "dump_checksums" (Value.vmap (PyDict.set m n chk))
  | some _ => rc
  | none => PyDict.set rc "dump_checksums" (Value.vmap (PyDict.set ([] : SMap) n chk))

/-- `de_null(fs_item.value)`: `antenna.util.de_null` strips NUL from text and `b'\0'`
from byte strings. -/
def deNullValue : FSValue → Value
  | .text s => .vstr (de_null s)
  | .bytes b => .vbytes (b.filter (fun x => x ≠ 0))

/-- The `for fs_item in fs.list` walk (lines 245-263), folding over the accumulated
`raw_crash` and `dumps` dicts. `none` models the `TypeError` that `hashlib.md5` raises
when a part classified as a dump carries a decoded text value. -/
def processItems (md5h : List Nat → String) :
    List FSItem → Dict → Dumps → Option (Dict × Dumps)
  | [], rc, dumps => some (rc, dumps)
  | it :: rest, rc, dumps =>
    if it.name = "dump_checksums" then
      processItems md5h rest rc dumps
    else if isDumpItem it then
      match it.value with
      | .bytes b =>
        processItems md5h rest (setChecksum rc it.name (md5h b)) (PyDict.set dumps it.name b)
      | .text _ => none
    else
      processItems md5h rest (PyDict.set rc it.name (deNullValue it.value)) dumps

/-- `extract_payload` (lines 170-265). Returns the parse result (`none` = an exception
escaped) together with the metric events it emitted before returning or raising. -/
def extract_payload (ext : Deps) (req : Req) : Option (Dict × Dumps) × List Event :=
  if (req.content_type.getD "") = "" then (some ([], []), [])
  else if !(ctShapeOk (req.content_type.getD "")) then (some ([], []), [])
  else
    let content_length := req.content_length.getD 0
    if content_length = 0 then (some ([], []), [])
    else if req.content_encoding = some "gzip" then
      match ext.gunzip (req.body.take content_length) with
      | none =>
        (some ([], []), [Event.incr "gzipped_crash", Event.incr "bad_gzipped_crash"])
      | some data =>
        (processItems ext.md5_hex (ext.parseForm data) [] [],
         [Event.incr "gzipped_crash", Event.histogram "crash_size.compressed" data.length])
    else
      (processItems ext.md5_hex (ext.parseForm (req.body.take content_length)) [] [],
       [Event.histogram "crash_size.uncompressed" content_length])

/-! ### `get_throttle_result` (lines 267-319) -/

/-- The body of the `try` block on lines 287-295: parse `legacy_processing` and
`throttle_rate`, validating the decision against `(ACCEPT, DEFER)` and the rate against
`0 <= rate <= 100`; `none` models the raised-and-caught `ValueError`. -/
def tryAlready (rc : Dict) : Option (Int × Int) :=
  match PyDict.get? rc "legacy_processing", PyDict.get? rc "throttle_rate" with
  | some lv, some tv =>
    match pyIntV lv with
    | none => none
    | some r =>
      if r = ACCEPT ∨ r = DEFER then
        match pyIntV tv with
        | none => none
        | some t => if 0 ≤ t ∧ t ≤ 100 then some (r, t) else none
      else none
  | _, _ => none

/-- Lines 302-319: the `Throttleable` check, the fall-through to the external throttler,
and the write-back of `legacy_processing` and `throttle_rate` into the raw crash. -/
def throttleFresh (throttle : Dict → Int × String × Int) (rc : Dict) (evts : List Event) :
    (Int × String × Int) × Dict × List Event :=
  let fresh :=
    if PyDict.get? rc "Throttleable" = some (Value.vstr "0") then
      ((ACCEPT, "THROTTLEABLE_0", (100 : Int)), evts ++ [Event.incr "throttleable_0"])
    else
      (throttle rc, evts)
  let r := fresh.1.1
  let t := fresh.1.2.2
  ((r, fresh.1.2.1, t),
   PyDict.set (PyDict.set rc "legacy_processing" (Value.vint r)) "throttle_rate" (Value.vint t),
   fresh.2)

/-- `get_throttle_result` (lines 267-319): returns the `(result, rule_name, rate)`
triple, the (possibly updated) raw crash, and the metric events. Note that the
`ALREADY_THROTTLED` early return on line 295 leaves the raw crash untouched. -/
def get_throttle_result (throttle : Dict → Int × String × Int) (rc : Dict) :
    (Int × String × Int) × Dict × List Event :=
  if (PyDict.get? rc "legacy_processing").isSome ∧ (PyDict.get? rc "throttle_rate").isSome then
    match tryAlready rc with
    | some rt => ((rt.1, "ALREADY_THROTTLED", rt.2), rc, [])
    | none => throttleFresh throttle rc [Event.incr "throttle.bad_throttle_values"]
  else
    throttleFresh throttle rc []

/-! ### `CrashReport`, `SaveQueue`, and the save pipeline (lines 38-61, 373-428) -/

/-- `CrashReport = namedtuple('CrashReport', ['raw_crash', 'dumps', 'crash_id'])`
(line 38). The crash id is a `Value` because `on_post` reuses `raw_crash['uuid']`
verbatim when the client supplied one. -/
structure CrashReport where
  raw_crash : Dict
  dumps : Dumps
  crash_id : Value
deriving DecidableEq

/-- `SaveQueue` (lines 41-61): a plain list used FIFO. -/
structure SaveQueue where
  queue : List CrashReport
deriving DecidableEq

namespace SaveQueue

/-- `add` (lines 53-55): append at the end. -/
def add (q : SaveQueue) (item : CrashReport) : SaveQueue :=
  ⟨q.queue ++ [item]⟩

/-- `next` (lines 57-61): pop the front, or `None` when empty; returned together with
the queue left behind. -/
def next (q : SaveQueue) : Option CrashReport × SaveQueue :=
  match q.queue with
  | [] => (none, q)
  | r :: t => (some r, ⟨t⟩)

/-- `__len__` (lines 50-51). -/
def len (q : SaveQueue) : Nat := q.queue.length

end SaveQueue

/-- The crashstorage backend's observable behaviour: whether `save_dumps` and
`save_raw_crash` succeed for given arguments (`false` = the call raises). The backend
class is external (`crashstorage_class` config). -/
structure Storage where
  save_dumps_ok : Value → Dumps → Bool
  save_raw_ok : Value → Dict → Bool

/-- A call into the crashstorage backend. -/
inductive SCall where
  | saveDumps (crash_id : Value) (dumps : Dumps)
  | saveRawCrash (crash_id : Value) (raw_crash : Dict)
deriving DecidableEq

/-- `save_crash_to_storage` (lines 396-428): save the dumps, then the raw crash; on
complete success emit `crash_handling.time` and `save_crash.count`. Returns whether the
call completed (`false` = an exception bubbled up), the storage calls made in order, and
the metric events. -/
def save_crash_to_storage (st : Storage) (r : CrashReport) :
    Bool × List SCall × List Event :=
  if st.save_dumps_ok r.crash_id r.dumps then
    if st.save_raw_ok r.crash_id r.raw_crash then
      (true,
       [SCall.saveDumps r.crash_id r.dumps, SCall.saveRawCrash r.crash_id r.raw_crash],
       [Event.timing "crash_handling.time", Event.incr "save_crash.count"])
    else
      (false,
       [SCall.saveDumps r.crash_id r.dumps, SCall.saveRawCrash r.crash_id r.raw_crash],
       [])
  else
    (false, [SCall.saveDumps r.crash_id r.dumps], [])

/-- One iteration of the `process_queue` drain loop (lines 386-394): dequeue the next
report, try to save it, and on an exception `add_to_queue` it again (append at the
tail). On an empty queue the loop body does not run. -/
def processStep (st : Storage) (q : SaveQueue) : SaveQueue × List SCall × List Event :=
  match SaveQueue.next q with
  | (none, q') => (q', [], [])
  | (some r, q') =>
    let out := save_crash_to_storage st r
    if out.1 then (q', out.2.1, out.2.2) else (SaveQueue.add q' r, out.2.1, out.2.2)

/-- `process_queue` (lines 386-394) run for a bounded number of iterations of the
`while len(...) > 0` loop, accumulating the storage calls. -/
def drain (st : Storage) : Nat → SaveQueue → SaveQueue × List SCall
  | 0, q => (q, [])
  | n + 1, q =>
    if q.queue = [] then (q, [])
    else
      let s := processStep st q
      let rest := drain st n s.1
      (rest.1, s.2.1 ++ rest.2)

/-! ### `on_post` (lines 321-371) and `add_to_queue` (lines 373-384) -/

/-- The response fields `on_post` sets: `resp.status`, `resp.content_type`, `resp.body`. -/
structure Resp where
  status : Nat
  content_type : String
  body : String
deriving DecidableEq

/-- The observable outcome of one `on_post` call: the response, the save queue after the
call, the report passed to `add_to_queue` (if any), the throttle decision used, and the
metric events in emission order. -/
structure PostOut where
  resp : Resp
  queue : SaveQueue
  enqueued : Option CrashReport
  decision : Int
  events : List Event
deriving DecidableEq

/-- `add_to_queue` (lines 373-384): append to the save queue. (The opportunistic
`pipeline_pool.spawn` has no effect on the queue contents; worker execution is modelled
separately by `processStep`/`drain`.) -/
def add_to_queue (q : SaveQueue) (r : CrashReport) : SaveQueue :=
  SaveQueue.add q r

/-- `on_post` (lines 321-371). `idPre` is the `dump_id_prefix` config value,
`start_time` the `time.time()` tick, `now` the `utc_now()` tick, `entropy` the
randomness consumed by `create_crash_id`. `none` models an exception escaping the
handler (only possible out of `extract_payload`'s checksum computation). -/
def on_post (ext : Deps) (idPre : String) (start_time now entropy : Nat)
    (req : Req) (q : SaveQueue) : Option PostOut :=
  match extract_payload ext req with
  | (none, _) => none
  | (some (rc0, dumps), evts0) =>
    let evts1 := evts0 ++ [Event.incr "incoming_crash"]
    let rc1 := PyDict.set (PyDict.set rc0 "submitted_timestamp" (Value.vstr (ext.iso now)))
      "timestamp" (Value.vtime start_time)
    let tout := get_throttle_result ext.throttle rc1
    let result := tout.1.1
    let rc2 := tout.2.1
    let evts2 := evts1 ++ tout.2.2
    let idPair : Value × Dict :=
      match PyDict.get? rc2 "uuid" with
      | some v => (v, rc2)
      | none =>
        let cid := create_crash_id entropy now result
        (Value.vstr cid, PyDict.set rc2 "uuid" (Value.vstr cid))
    let rc4 := PyDict.set idPair.2 "type_tag" (Value.vstr (pyStrip idPre '-'))
    -- `raw_crash['legacy_processing'] is ACCEPT` etc.: identity comparison against the
    -- small interned decision ints, which coincides with equality for int values and is
    -- false for any non-int value (such as the strings an ALREADY_THROTTLED crash keeps).
    let lp := PyDict.get? rc4 "legacy_processing"
    let enqueue : List Event → Option PostOut := fun evts =>
      let report : CrashReport := ⟨rc4, dumps, idPair.1⟩
      some
        { resp := ⟨200, "text/plain", "CrashID=" ++ idPre ++ fmtValue idPair.1 ++ "\n"⟩,
          queue := add_to_queue q report,
          enqueued := some report,
          decision := result,
          events := evts }
    if lp = some (Value.vint ACCEPT) then
      enqueue (evts2 ++ [Event.incr "throttle.accept"])
    else if lp = some (Value.vint DEFER) then
      enqueue (evts2 ++ [Event.incr "throttle.defer"])
    else if lp = some (Value.vint REJECT) then
      some
        { resp := ⟨200, "text/plain", "Discarded=1"⟩,
          queue := q,
          enqueued := none,
          decision := result,
          events := evts2 ++ [Event.incr "throttle.reject"] }
    else
      enqueue evts2

/-! ### Concrete fixtures used by witnesses and counterexamples -/

/-- gzip-compressed bytes of the five ASCII bytes of `hello` (a genuine
`gzip.compress` output pair, 25 bytes on the wire). -/
def gzHello : List Nat :=
  [31, 139, 8, 0, 0, 0, 0, 0, 2, 255, 203, 72, 205, 201, 201, 7, 0, 134, 166, 16, 54, 5, 0, 0, 0]

/-- The decompressed counterpart of `gzHello`. -/
def helloBytes : List Nat := [104, 101, 108, 108, 111]

/-- A collaborator record for concrete runs: the decompressor knows exactly the
`gzHello`/`helloBytes` pair, the form parser returns one text field and one dump, the
throttler accepts everything at rate 50. -/
def extDemo : Deps :=
  { md5_hex := fun b => "h" ++ toString b.length,
    gunzip := fun b => if b = gzHello then some helloBytes else none,
    parseForm := fun _ =>
      [⟨"ProductName", some "text/plain", .text "Firefox"⟩,
       ⟨"upload_file_minidump", some "application/octet-stream", .bytes [170, 187, 204]⟩],
    throttle := fun _ => (ACCEPT, "accept_everything", 50),
    iso := fun n => "iso" ++ toString n }

/-- A well-formed uncompressed request. -/
def reqDemo : Req :=
  { content_type := some "multipart/form-data; boundary=xyz",
    content_length := some 7,
    content_encoding := none,
    body := [1, 2, 3, 4, 5, 6, 7] }

/-- A well-formed gzip request whose body is the genuine pair `gzHello`. -/
def reqGz : Req :=
  { content_type := some "multipart/form-data; boundary=xyz",
    content_length := some 25,
    content_encoding := some "gzip",
    body := gzHello }

/-- A gzip-declared request whose body is junk (`not gzip`, as in spec scenario S3). -/
def reqBadGz : Req :=
  { content_type := some "multipart/form-data; boundary=xyz",
    content_length := some 8,
    content_encoding := some "gzip",
    body := [110, 111, 116, 32, 103, 122, 105, 112] }

/-- Collaborators for the resubmitted-crash counterexamples: the form carries
`legacy_processing=0` and `throttle_rate=50` as text fields. -/
def extResub : Deps :=
  { extDemo with
    parseForm := fun _ =>
      [⟨"legacy_processing", some "text/plain", .text "0"⟩,
       ⟨"throttle_rate", some "text/plain", .text "50"⟩] }

/-- A request with no Content-Type header at all (malformed case 1). -/
def reqNoCT : Req :=
  { content_type := none, content_length := some 7, content_encoding := none,
    body := [1, 2, 3] }

/-- A storage backend whose `save_dumps` always succeeds and whose `save_raw_crash`
always raises. -/
def stRawFails : Storage :=
  { save_dumps_ok := fun _ _ => true, save_raw_ok := fun _ _ => false }

/-- A tiny concrete crash report. -/
def repDemo : CrashReport :=
  ⟨[("uuid", Value.vstr "u1")], [("upload_file_minidump", [1, 2])], Value.vstr "u1"⟩

/-- The outcome of a concrete happy-path POST (used by witnesses). -/
def outDemo : PostOut :=
  (on_post extDemo "bp-" 1 2 3 reqDemo ⟨[]⟩).getD
    ⟨⟨0, "", ""⟩, ⟨[]⟩, none, 0, []⟩

/-- The report the concrete happy-path POST enqueues. -/
def repDemoOut : CrashReport :=
  outDemo.enqueued.getD ⟨[], [], Value.vstr ""⟩

/-- Collaborators whose throttler rejects everything. -/
def extReject : Deps :=
  { extDemo with throttle := fun _ => (REJECT, "reject_all", 0) }

/-- The outcome of a concrete POST whose throttle decision is REJECT. -/
def outRej : PostOut :=
  (on_post extReject "bp-" 1 2 3 reqDemo ⟨[]⟩).getD ⟨⟨0, "", ""⟩, ⟨[]⟩, none, 0, []⟩

/-- A form item list containing a blank-valued text part (kept by
`keep_blank_values=1`). -/
def blankItems : List FSItem :=
  [⟨"ProductName", some "text/plain", FSValue.text "Firefox"⟩,
   ⟨"EmptyField", some "text/plain", FSValue.text ""⟩,
   ⟨"upload_file_minidump", some "application/octet-stream", FSValue.bytes [1]⟩]

/-- The parse result of walking `blankItems`. -/
def blankOut : Dict × Dumps :=
  (processItems (fun b => "h" ++ toString b.length) blankItems [] []).getD ([], [])

/-! ### Characterizing `on_post` -/

/-- The raw crash right after line 332: the parse result with the two timestamps added. -/
def rc1of (ext : Deps) (st_ now : Nat) (rc0 : Dict) : Dict :=
  PyDict.set (PyDict.set rc0 "submitted_timestamp" (Value.vstr (ext.iso now)))
    "timestamp" (Value.vtime st_)

/-- The `CrashReport` that `on_post` constructs from a successful parse result (the
state of `raw_crash` after line 349, the dumps, and the crash id of lines 339-347). -/
def postReport (ext : Deps) (idPre : String) (st_ now ent : Nat) (rc0 : Dict)
    (dumps : Dumps) : CrashReport :=
  let tout := get_throttle_result ext.throttle (rc1of ext st_ now rc0)
  let idPair : Value × Dict :=
    match PyDict.get? tout.2.1 "uuid" with
    | some v => (v, tout.2.1)
    | none =>
      let cid := create_crash_id ent now tout.1.1
      (Value.vstr cid, PyDict.set tout.2.1 "uuid" (Value.vstr cid))
  ⟨PyDict.set idPair.2 "type_tag" (Value.vstr (pyStrip idPre '-')), dumps, idPair.1⟩

/-! ### The dump-checksum invariant of the payload walk -/

/-- The relation `on_post` relies on between a raw crash and its dumps: the
`dump_checksums` key (when present) holds a nested dict, and every dump name maps in it
to the digest of the dump's bytes. -/
def ChecksumInv (md5h : List Nat → String) (rc : Dict) (dumps : Dumps) : Prop :=
  (∀ v, PyDict.get? rc "dump_checksums" = some v → ∃ m, v = Value.vmap m) ∧
  ∀ n b, PyDict.get? dumps n = some b →
    ∃ m, PyDict.get? rc "dump_checksums" = some (Value.vmap m) ∧
      PyDict.get? m n = some (md5h b)

/-! ### Helper lemmas about the throttle-result adapter -/

theorem PyDict.get?_set_self {α : Type} (l : List (String × α)) (k : String) (v : α) :
    PyDict.get? (PyDict.set l k v) k = some v := by
  induction l with
  | nil => simp [PyDict.get?, PyDict.set]
  | cons p t ih =>
    by_cases h : p.1 = k
    · simp [PyDict.get?, PyDict.set, h]
    · simp [PyDict.get?, PyDict.set, h, ih]

theorem PyDict.get?_set_ne {α : Type} (l : List (String × α)) (k k' : String) (v : α)
    (h : k ≠ k') : PyDict.get? (PyDict.set l k v) k' = PyDict.get? l k' := by
  induction l with
  | nil => simp [PyDict.get?, PyDict.set, h]
  | cons p t ih =>
    by_cases hp : p.1 = k
    · simp [PyDict.get?, PyDict.set, hp, h]
    · simp only [PyDict.set, if_neg hp]
      by_cases hp' : p.1 = k'
      · simp [PyDict.get?, hp']
      · simp [PyDict.get?, hp', ih]


theorem tryAlready_some (rc : Dict) (rt : Int × Int) (h : tryAlready rc = some rt) :
    (rt.1 = ACCEPT ∨ rt.1 = DEFER) ∧ 0 ≤ rt.2 ∧ rt.2 ≤ 100 ∧
      (∃ lv, PyDict.get? rc "legacy_processing" = some lv ∧ pyIntV lv = some rt.1) ∧
      (∃ tv, PyDict.get? rc "throttle_rate" = some tv ∧ pyIntV tv = some rt.2) := by
  unfold tryAlready at h
  rcases h1 : PyDict.get? rc "legacy_processing" with _ | lv <;> rw [h1] at h
  · exact absurd h (by simp)
  rcases h2 : PyDict.get? rc "throttle_rate" with _ | tv <;> rw [h2] at h
  · exact absurd h (by simp)
  dsimp only at h
  rcases h3 : pyIntV lv with _ | rv <;> rw [h3] at h
  · exact absurd h (by simp)
  dsimp only at h
  by_cases h4 : rv = ACCEPT ∨ rv = DEFER
  · rw [if_pos h4] at h
    rcases h5 : pyIntV tv with _ | tr <;> rw [h5] at h
    · exact absurd h (by simp)
    dsimp only at h
    by_cases h6 : 0 ≤ tr ∧ tr ≤ 100
    · rw [if_pos h6] at h
      injection h with h
      subst h
      exact ⟨h4, h6.1, h6.2, ⟨lv, rfl, h3⟩, ⟨tv, rfl, h5⟩⟩
    · rw [if_neg h6] at h
      exact absurd h (by simp)
  · rw [if_neg h4] at h
    exact absurd h (by simp)

theorem throttleFresh_rc (th : Dict → Int × String × Int) (rc : Dict) (evts : List Event) :
    (throttleFresh th rc evts).2.1 =
      PyDict.set (PyDict.set rc "legacy_processing" (Value.vint (throttleFresh th rc evts).1.1))
        "throttle_rate" (Value.vint (throttleFresh th rc evts).1.2.2) := rfl

theorem throttleFresh_result (th : Dict → Int × String × Int) (rc : Dict) (evts : List Event) :
    (throttleFresh th rc evts).1 = (ACCEPT, "THROTTLEABLE_0", (100 : Int)) ∨
      (throttleFresh th rc evts).1 = th rc := by
  unfold throttleFresh
  split
  · left; rfl
  · right; rfl

theorem throttleFresh_lookup_lp (th : Dict → Int × String × Int) (rc : Dict)
    (evts : List Event) :
    PyDict.get? (throttleFresh th rc evts).2.1 "legacy_processing" =
      some (Value.vint (throttleFresh th rc evts).1.1) := by
  rw [throttleFresh_rc]
  rw [PyDict.get?_set_ne _ _ _ _ (by decide)]
  exact PyDict.get?_set_self ..

theorem throttleFresh_lookup_tr (th : Dict → Int × String × Int) (rc : Dict)
    (evts : List Event) :
    PyDict.get? (throttleFresh th rc evts).2.1 "throttle_rate" =
      some (Value.vint (throttleFresh th rc evts).1.2.2) := by
  rw [throttleFresh_rc]
  exact PyDict.get?_set_self ..

theorem throttleFresh_lookup_other (th : Dict → Int × String × Int) (rc : Dict)
    (evts : List Event) (k : String) (h1 : k ≠ "legacy_processing")
    (h2 : k ≠ "throttle_rate") :
    PyDict.get? (throttleFresh th rc evts).2.1 k = PyDict.get? rc k := by
  rw [throttleFresh_rc]
  rw [PyDict.get?_set_ne _ _ _ _ (Ne.symm h2), PyDict.get?_set_ne _ _ _ _ (Ne.symm h1)]

theorem gtr_cases (th : Dict → Int × String × Int) (rc : Dict) :
    (∃ rt, tryAlready rc = some rt ∧
      get_throttle_result th rc = ((rt.1, "ALREADY_THROTTLED", rt.2), rc, [])) ∨
    (tryAlready rc = none ∧ ∃ evts,
      get_throttle_result th rc = throttleFresh th rc evts) := by
  by_cases hb : (PyDict.get? rc "legacy_processing").isSome ∧
      (PyDict.get? rc "throttle_rate").isSome
  · cases htr : tryAlready rc with
    | some rt =>
      left
      refine ⟨rt, rfl, ?_⟩
      unfold get_throttle_result
      rw [if_pos hb, htr]
    | none =>
      right
      refine ⟨rfl, [Event.incr "throttle.bad_throttle_values"], ?_⟩
      unfold get_throttle_result
      rw [if_pos hb, htr]
  · right
    have htr : tryAlready rc = none := by
      unfold tryAlready
      rcases h1 : PyDict.get? rc "legacy_processing" with _ | lv
      · rfl
      rcases h2 : PyDict.get? rc "throttle_rate" with _ | tv
      · rfl
      · exact absurd ⟨by simp [h1], by simp [h2]⟩ hb
    refine ⟨htr, [], ?_⟩
    unfold get_throttle_result
    rw [if_neg hb]

theorem checksumInv_nil (md5h : List Nat → String) : ChecksumInv md5h [] [] := by
  constructor
  · intro v hv
    simp [PyDict.get?] at hv
  · intro n b hb
    simp [PyDict.get?] at hb

theorem checksumInv_set_other (md5h : List Nat → String) (rc : Dict) (dumps : Dumps)
    (h : ChecksumInv md5h rc dumps) (k : String) (v : Value)
    (hk : k ≠ "dump_checksums") : ChecksumInv md5h (PyDict.set rc k v) dumps := by
  constructor
  · intro w hw
    rw [PyDict.get?_set_ne _ _ _ _ hk] at hw
    exact h.1 w hw
  · intro n b hb
    obtain ⟨m, hm, hmn⟩ := h.2 n b hb
    exact ⟨m, by rw [PyDict.get?_set_ne _ _ _ _ hk]; exact hm, hmn⟩

theorem checksumInv_setChecksum (md5h : List Nat → String) (rc : Dict) (dumps : Dumps)
    (h : ChecksumInv md5h rc dumps) (n : String) (b : List Nat) :
    ChecksumInv md5h (setChecksum rc n (md5h b)) (PyDict.set dumps n b) := by
  unfold setChecksum
  rcases hdc : PyDict.get? rc "dump_checksums" with _ | v
  · constructor
    · intro w hw
      rw [PyDict.get?_set_self] at hw
      exact ⟨_, (Option.some.inj hw).symm⟩
    · intro n' b' hb'
      by_cases hn : n' = n
      · subst hn
        rw [PyDict.get?_set_self] at hb'
        refine ⟨_, PyDict.get?_set_self .., ?_⟩
        rw [Option.some.inj hb']
        exact PyDict.get?_set_self ..
      · rw [PyDict.get?_set_ne _ _ _ _ (fun e => hn e.symm)] at hb'
        obtain ⟨m, hm, _⟩ := h.2 n' b' hb'
        rw [hdc] at hm
        exact absurd hm (by simp)
  · obtain ⟨m, rfl⟩ := h.1 v hdc
    constructor
    · intro w hw
      rw [PyDict.get?_set_self] at hw
      exact ⟨_, (Option.some.inj hw).symm⟩
    · intro n' b' hb'
      by_cases hn : n' = n
      · subst hn
        rw [PyDict.get?_set_self] at hb'
        refine ⟨_, PyDict.get?_set_self .., ?_⟩
        rw [Option.some.inj hb']
        exact PyDict.get?_set_self ..
      · rw [PyDict.get?_set_ne _ _ _ _ (fun e => hn e.symm)] at hb'
        obtain ⟨m', hm', hmn'⟩ := h.2 n' b' hb'
        rw [hdc] at hm'
        injection Option.some.inj hm' with hmm
        subst hmm
        refine ⟨_, PyDict.get?_set_self .., ?_⟩
        rw [PyDict.get?_set_ne _ _ _ _ (fun e => hn e.symm)]
        exact hmn'

theorem processItems_inv (md5h : List Nat → String) :
    ∀ (items : List FSItem) (rc : Dict) (dumps : Dumps) (out : Dict × Dumps),
      ChecksumInv md5h rc dumps → processItems md5h items rc dumps = some out →
      ChecksumInv md5h out.1 out.2 := by
  intro items
  induction items with
  | nil =>
    intro rc dumps out h hp
    obtain rfl : (rc, dumps) = out := Option.some.inj hp
    exact h
  | cons it rest ih =>
    intro rc dumps out h hp
    unfold processItems at hp
    by_cases h1 : it.name = "dump_checksums"
    · rw [if_pos h1] at hp
      exact ih rc dumps out h hp
    · rw [if_neg h1] at hp
      by_cases h2 : isDumpItem it
      · rw [if_pos h2] at hp
        rcases hv : it.value with s | b
        · rw [hv] at hp
          exact absurd hp (by simp)
        · rw [hv] at hp
          exact ih _ _ out (checksumInv_setChecksum md5h rc dumps h it.name b) hp
      · rw [if_neg h2] at hp
        exact ih _ _ out (checksumInv_set_other md5h rc dumps h it.name _ h1) hp

theorem extract_shape (ext : Deps) (req : Req) :
    (extract_payload ext req).1 = some (([] : Dict), ([] : Dumps)) ∨
    ∃ payload, (extract_payload ext req).1 =
      processItems ext.md5_hex (ext.parseForm payload) [] [] := by
  unfold extract_payload
  split
  · left; rfl
  split
  · left; rfl
  dsimp only
  split
  · left; rfl
  split
  · split
    · left; rfl
    · right; exact ⟨_, rfl⟩
  · right; exact ⟨_, rfl⟩

theorem extract_inv (ext : Deps) (req : Req) (rc : Dict) (dumps : Dumps)
    (h : (extract_payload ext req).1 = some (rc, dumps)) :
    ChecksumInv ext.md5_hex rc dumps := by
  rcases extract_shape ext req with hs | ⟨payload, hs⟩
  · rw [hs] at h
    obtain ⟨rfl, rfl⟩ : ([] : Dict) = rc ∧ ([] : Dumps) = dumps := by
      have := Option.some.inj h
      exact ⟨congrArg Prod.fst this, congrArg Prod.snd this⟩
    exact checksumInv_nil _
  · rw [hs] at h
    exact processItems_inv _ _ _ _ (rc, dumps) (checksumInv_nil _) h

theorem on_post_char (ext : Deps) (idPre : String) (st_ now ent : Nat) (req : Req)
    (q : SaveQueue) (out : PostOut)
    (hp : on_post ext idPre st_ now ent req q = some out) :
    ∃ rc0 dumps,
      (extract_payload ext req).1 = some (rc0, dumps) ∧
      out.decision = (get_throttle_result ext.throttle (rc1of ext st_ now rc0)).1.1 ∧
      ((PyDict.get? (postReport ext idPre st_ now ent rc0 dumps).raw_crash
          "legacy_processing" = some (Value.vint REJECT) ∧
        out.enqueued = none ∧ out.queue = q ∧
        out.resp = ⟨200, "text/plain", "Discarded=1"⟩) ∨
       (PyDict.get? (postReport ext idPre st_ now ent rc0 dumps).raw_crash
          "legacy_processing" ≠ some (Value.vint REJECT) ∧
        out.enqueued = some (postReport ext idPre st_ now ent rc0 dumps) ∧
        out.queue = SaveQueue.add q (postReport ext idPre st_ now ent rc0 dumps) ∧
        out.resp = ⟨200, "text/plain",
          "CrashID=" ++ idPre ++
            fmtValue (postReport ext idPre st_ now ent rc0 dumps).crash_id ++ "\n"⟩)) := by
  unfold on_post at hp
  rcases hE : extract_payload ext req with ⟨o, evts0⟩
  rw [hE] at hp
  rcases o with _ | ⟨rc0, dumps⟩
  · exact absurd hp (by simp)
  dsimp only at hp
  refine ⟨rc0, dumps, ?_, ?_⟩
  · rfl
  unfold postReport rc1of
  rcases hU : PyDict.get? (get_throttle_result ext.throttle
      (PyDict.set (PyDict.set rc0 "submitted_timestamp" (Value.vstr (ext.iso now)))
        "timestamp" (Value.vtime st_))).2.1 "uuid" with _ | v <;>
    dsimp only at hp ⊢ <;>
    (split at hp
     case isTrue hA =>
       obtain rfl := Option.some.inj hp
       exact ⟨rfl, Or.inr ⟨by rw [hA]; decide, rfl, rfl, rfl⟩⟩
     case isFalse hA =>
       split at hp
       case isTrue hD =>
         obtain rfl := Option.some.inj hp
         exact ⟨rfl, Or.inr ⟨by rw [hD]; decide, rfl, rfl, rfl⟩⟩
       case isFalse hD =>
         split at hp
         case isTrue hR =>
           obtain rfl := Option.some.inj hp
           exact ⟨rfl, Or.inl ⟨hR, rfl, rfl, rfl⟩⟩
         case isFalse hR =>
           obtain rfl := Option.some.inj hp
           exact ⟨rfl, Or.inr ⟨hR, rfl, rfl, rfl⟩⟩)

theorem postReport_dumps (ext : Deps) (idPre : String) (st_ now ent : Nat) (rc0 : Dict)
    (dumps : Dumps) : (postReport ext idPre st_ now ent rc0 dumps).dumps = dumps := by
  unfold postReport
  rcases hU : PyDict.get? (get_throttle_result ext.throttle (rc1of ext st_ now rc0)).2.1
      "uuid" with _ | v <;> simp only [hU]

theorem postReport_uuid (ext : Deps) (idPre : String) (st_ now ent : Nat) (rc0 : Dict)
    (dumps : Dumps) :
    PyDict.get? (postReport ext idPre st_ now ent rc0 dumps).raw_crash "uuid" =
      some (postReport ext idPre st_ now ent rc0 dumps).crash_id := by
  unfold postReport
  rcases hU : PyDict.get? (get_throttle_result ext.throttle (rc1of ext st_ now rc0)).2.1
      "uuid" with _ | v <;> simp only [hU]
  · rw [PyDict.get?_set_ne _ _ _ _ (by decide)]
    exact PyDict.get?_set_self ..
  · rw [PyDict.get?_set_ne _ _ _ _ (by decide)]
    exact hU

theorem postReport_lookup_other (ext : Deps) (idPre : String) (st_ now ent : Nat)
    (rc0 : Dict) (dumps : Dumps) (k : String) (h1 : k ≠ "uuid") (h2 : k ≠ "type_tag") :
    PyDict.get? (postReport ext idPre st_ now ent rc0 dumps).raw_crash k =
      PyDict.get? (get_throttle_result ext.throttle (rc1of ext st_ now rc0)).2.1 k := by
  unfold postReport
  rcases hU : PyDict.get? (get_throttle_result ext.throttle (rc1of ext st_ now rc0)).2.1
      "uuid" with _ | v <;> simp only [hU]
  · rw [PyDict.get?_set_ne _ _ _ _ (Ne.symm h2), PyDict.get?_set_ne _ _ _ _ (Ne.symm h1)]
  · rw [PyDict.get?_set_ne _ _ _ _ (Ne.symm h2)]

theorem gtr_checksumInv (th : Dict → Int × String × Int) (rc : Dict) (d : Dumps)
    (md5h : List Nat → String) (h : ChecksumInv md5h rc d) :
    ChecksumInv md5h (get_throttle_result th rc).2.1 d := by
  rcases gtr_cases th rc with ⟨rt, _, he⟩ | ⟨_, evts, he⟩
  · rw [he]
    exact h
  · rw [he, throttleFresh_rc]
    exact checksumInv_set_other _ _ _
      (checksumInv_set_other _ _ _ h _ _ (by decide)) _ _ (by decide)

theorem postReport_checksumInv (ext : Deps) (idPre : String) (st_ now ent : Nat)
    (rc0 : Dict) (dumps : Dumps) (h : ChecksumInv ext.md5_hex rc0 dumps) :
    ChecksumInv ext.md5_hex (postReport ext idPre st_ now ent rc0 dumps).raw_crash dumps := by
  have h1 : ChecksumInv ext.md5_hex (rc1of ext st_ now rc0) dumps := by
    unfold rc1of
    exact checksumInv_set_other _ _ _
      (checksumInv_set_other _ _ _ h _ _ (by decide)) _ _ (by decide)
  have h2 := gtr_checksumInv ext.throttle _ dumps ext.md5_hex h1
  unfold postReport
  rcases hU : PyDict.get? (get_throttle_result ext.throttle (rc1of ext st_ now rc0)).2.1
      "uuid" with _ | v <;> simp only [hU]
  · exact checksumInv_set_other _ _ _
      (checksumInv_set_other _ _ _ h2 _ _ (by decide)) _ _ (by decide)
  · exact checksumInv_set_other _ _ _ h2 _ _ (by decide)

theorem gtr_lp_tr (th : Dict → Int × String × Int) (rc : Dict)
    (hth : 0 ≤ (th rc).2.2 ∧ (th rc).2.2 ≤ 100) :
    (∃ v, PyDict.get? (get_throttle_result th rc).2.1 "legacy_processing" = some v ∧
      pyIntV v = some (get_throttle_result th rc).1.1) ∧
    (∃ v t, PyDict.get? (get_throttle_result th rc).2.1 "throttle_rate" = some v ∧
      pyIntV v = some t ∧ 0 ≤ t ∧ t ≤ 100) := by
  rcases gtr_cases th rc with ⟨rt, ha, he⟩ | ⟨_, evts, he⟩
  · obtain ⟨_, hge, hle, ⟨lv, hlv, hlvi⟩, ⟨tv, htv, htvi⟩⟩ := tryAlready_some rc rt ha
    rw [he]
    exact ⟨⟨lv, hlv, hlvi⟩, ⟨tv, rt.2, htv, htvi, hge, hle⟩⟩
  · rw [he]
    refine ⟨⟨_, throttleFresh_lookup_lp th rc evts, rfl⟩,
      ⟨_, (throttleFresh th rc evts).1.2.2, throttleFresh_lookup_tr th rc evts, rfl, ?_⟩⟩
    rcases throttleFresh_result th rc evts with hr | hr <;> rw [hr]
    · exact ⟨by decide, by decide⟩
    · exact hth

/-! ### Claim C1 -/

/-- C1 (amended): every report `on_post` enqueues with decision ACCEPT or DEFER — the
empty-parse case included — satisfies: `metadata['uuid']` equals its crash id; the stored
`metadata['legacy_processing']` parses (via Python `int`) to the decision and the stored
`metadata['throttle_rate']` parses to a rate within `[0, 100]` (they are the integers
themselves except on the `ALREADY_THROTTLED` path, which leaves the client's original
text values in place); and `metadata['dump_checksums'][n]` is the digest of `dumps[n]`
for every dump name `n`. The external throttler is assumed to return a percentage. -/
theorem c1_enqueued_invariants (ext : Deps) (idPre : String) (st_ now ent : Nat)
    (req : Req) (q : SaveQueue) (out : PostOut) (r : CrashReport)
    (hth : ∀ rc, 0 ≤ (ext.throttle rc).2.2 ∧ (ext.throttle rc).2.2 ≤ 100)
    (hp : on_post ext idPre st_ now ent req q = some out)
    (he : out.enqueued = some r)
    (_hd : out.decision = ACCEPT ∨ out.decision = DEFER) :
    PyDict.get? r.raw_crash "uuid" = some r.crash_id ∧
    (∃ v, PyDict.get? r.raw_crash "legacy_processing" = some v ∧
      pyIntV v = some out.decision) ∧
    (∃ v t, PyDict.get? r.raw_crash "throttle_rate" = some v ∧ pyIntV v = some t ∧
      0 ≤ t ∧ t ≤ 100) ∧
    (∀ n b, PyDict.get? r.dumps n = some b →
      ∃ m, PyDict.get? r.raw_crash "dump_checksums" = some (Value.vmap m) ∧
        PyDict.get? m n = some (ext.md5_hex b)) := by
  obtain ⟨rc0, dumps, hE, hdec, hbr⟩ := on_post_char ext idPre st_ now ent req q out hp
  rcases hbr with ⟨_, hnone, _, _⟩ | ⟨_, hsome, _, _⟩
  · rw [hnone] at he
    exact absurd he (by simp)
  · rw [hsome] at he
    obtain rfl := Option.some.inj he
    refine ⟨postReport_uuid .., ?_, ?_, ?_⟩
    · obtain ⟨⟨v, hv, hvi⟩, -⟩ := gtr_lp_tr ext.throttle (rc1of ext st_ now rc0) (hth _)
      refine ⟨v, ?_, ?_⟩
      · rw [postReport_lookup_other ext idPre st_ now ent rc0 dumps _ (by decide) (by decide)]
        exact hv
      · rw [hdec]
        exact hvi
    · obtain ⟨-, ⟨v, t, hv, hvi, h0, h100⟩⟩ :=
        gtr_lp_tr ext.throttle (rc1of ext st_ now rc0) (hth _)
      refine ⟨v, t, ?_, hvi, h0, h100⟩
      rw [postReport_lookup_other ext idPre st_ now ent rc0 dumps _ (by decide) (by decide)]
      exact hv
    · intro n b hb
      have hinv := postReport_checksumInv ext idPre st_ now ent rc0 dumps
        (extract_inv ext req rc0 dumps hE)
      rw [postReport_dumps] at hb
      exact hinv.2 n b hb

/-- C1 counterexample: a resubmitted crash carrying `legacy_processing=0` and
`throttle_rate=50` as form text fields is enqueued with decision ACCEPT, but the stored
`metadata['legacy_processing']` is the client's string `"0"`, not the integer decision,
so the claim's equality `metadata['legacy_processing'] == decision` fails as stated. -/
theorem c1_counterexample :
    (on_post extResub "bp-" 1 2 3 reqDemo ⟨[]⟩).map
        (fun out => (out.decision,
          out.enqueued.map (fun r => PyDict.get? r.raw_crash "legacy_processing"))) =
      some (ACCEPT, some (some (Value.vstr "0"))) ∧
    Value.vstr "0" ≠ Value.vint ACCEPT := by
  exact ⟨by decide, by decide⟩

/-- C1 witness: the amended theorem applied to a concrete happy-path POST. -/
theorem c1_witness :
    PyDict.get? repDemoOut.raw_crash "uuid" = some repDemoOut.crash_id ∧
    (∃ v, PyDict.get? repDemoOut.raw_crash "legacy_processing" = some v ∧
      pyIntV v = some outDemo.decision) ∧
    (∃ v t, PyDict.get? repDemoOut.raw_crash "throttle_rate" = some v ∧
      pyIntV v = some t ∧ 0 ≤ t ∧ t ≤ 100) ∧
    (∀ n b, PyDict.get? repDemoOut.dumps n = some b →
      ∃ m, PyDict.get? repDemoOut.raw_crash "dump_checksums" = some (Value.vmap m) ∧
        PyDict.get? m n = some (extDemo.md5_hex b)) :=
  c1_enqueued_invariants extDemo "bp-" 1 2 3 reqDemo ⟨[]⟩ outDemo repDemoOut
    (fun _ => by norm_num [extDemo]) (by decide) (by decide) (Or.inl (by decide))

/-! ### Claim C2 -/

/-- C2 (amended): a metadata map whose `Throttleable` entry is the string `"0"` makes
`get_throttle_result` return `(ACCEPT, "THROTTLEABLE_0", 100)` regardless of other
fields — unless the map also carries a valid already-throttled pair
(`legacy_processing` parsing to ACCEPT or DEFER together with `throttle_rate` parsing
into `[0, 100]`), in which case the `ALREADY_THROTTLED` rule wins instead. -/
theorem c2_throttleable_zero (th : Dict → Int × String × Int) (rc : Dict)
    (hT : PyDict.get? rc "Throttleable" = some (Value.vstr "0"))
    (hA : tryAlready rc = none) :
    (get_throttle_result th rc).1 = (ACCEPT, "THROTTLEABLE_0", 100) := by
  rcases gtr_cases th rc with ⟨rt, ha, _⟩ | ⟨_, evts, he⟩
  · rw [hA] at ha
    exact absurd ha (by simp)
  · rw [he]
    unfold throttleFresh
    rw [if_pos hT]

/-- C2 counterexample: with `Throttleable="0"` but also a valid resubmitted pair
`legacy_processing="1"`, `throttle_rate="50"`, the adapter returns
`(DEFER, "ALREADY_THROTTLED", 50)`, not `(ACCEPT, "THROTTLEABLE_0", 100)`, so
"regardless of any other fields" fails. -/
theorem c2_counterexample :
    (get_throttle_result (fun _ => (REJECT, "z", 0))
        [("Throttleable", Value.vstr "0"), ("legacy_processing", Value.vstr "1"),
         ("throttle_rate", Value.vstr "50")]).1 = (DEFER, "ALREADY_THROTTLED", 50) ∧
    ((DEFER, "ALREADY_THROTTLED", (50 : Int)) : Int × String × Int) ≠
      (ACCEPT, "THROTTLEABLE_0", 100) := ⟨by decide, by decide⟩

/-- C2 witness: the amended theorem applied to a concrete map. -/
theorem c2_witness :
    (get_throttle_result (fun _ => (REJECT, "z", (0 : Int)))
        [("Throttleable", Value.vstr "0"), ("ProductName", Value.vstr "Firefox")]).1 =
      (ACCEPT, "THROTTLEABLE_0", 100) :=
  c2_throttleable_zero (fun _ => (REJECT, "z", 0))
    [("Throttleable", Value.vstr "0"), ("ProductName", Value.vstr "Firefox")]
    (by decide) (by decide)

/-! ### Claim C8 -/

/-- C8 (amended): after `get_throttle_result th rc` returns `(r, name, t)`, the two keys
`legacy_processing` and `throttle_rate` hold `r` and `t` as integers — overwriting any
prior values — in every branch except the `ALREADY_THROTTLED` early return, which leaves
the map completely untouched (the client's original values stay in place there). -/
theorem c8_writeback (th : Dict → Int × String × Int) (rc : Dict) :
    (tryAlready rc = none →
      PyDict.get? (get_throttle_result th rc).2.1 "legacy_processing" =
        some (Value.vint (get_throttle_result th rc).1.1) ∧
      PyDict.get? (get_throttle_result th rc).2.1 "throttle_rate" =
        some (Value.vint (get_throttle_result th rc).1.2.2)) ∧
    (∀ rt, tryAlready rc = some rt → (get_throttle_result th rc).2.1 = rc) := by
  constructor
  · intro hA
    rcases gtr_cases th rc with ⟨rt, ha, _⟩ | ⟨_, evts, he⟩
    · rw [hA] at ha
      exact absurd ha (by simp)
    · rw [he]
      exact ⟨throttleFresh_lookup_lp th rc evts, throttleFresh_lookup_tr th rc evts⟩
  · intro rt ha
    rcases gtr_cases th rc with ⟨rt', ha', he⟩ | ⟨hnone, _, _⟩
    · rw [he]
    · rw [hnone] at ha
      exact absurd ha (by simp)

/-- C8 counterexample: on the `ALREADY_THROTTLED` path nothing is written back — with
`legacy_processing="0"` and `throttle_rate="50"` the adapter returns decision `0`, yet
the map still holds the string `"0"`, not the integer decision it returned. -/
theorem c8_counterexample :
    (get_throttle_result (fun _ => (REJECT, "z", 0))
        [("legacy_processing", Value.vstr "0"), ("throttle_rate", Value.vstr "50")]).1.1 =
      ACCEPT ∧
    PyDict.get? (get_throttle_result (fun _ => (REJECT, "z", (0 : Int)))
        [("legacy_processing", Value.vstr "0"), ("throttle_rate", Value.vstr "50")]).2.1
        "legacy_processing" = some (Value.vstr "0") ∧
    Value.vstr "0" ≠ Value.vint ACCEPT := ⟨by decide, by decide, by decide⟩

/-- C8 witness: the amended theorem applied concretely — a fresh throttle writes the
integers back over the prior values, and an already-throttled map is left untouched. -/
theorem c8_witness :
    (PyDict.get? (get_throttle_result (fun _ => (ACCEPT, "a", (37 : Int)))
        [("legacy_processing", Value.vstr "bogus"), ("throttle_rate", Value.vstr "50")]).2.1
        "legacy_processing" =
      some (Value.vint (get_throttle_result (fun _ => (ACCEPT, "a", (37 : Int)))
        [("legacy_processing", Value.vstr "bogus"),
         ("throttle_rate", Value.vstr "50")]).1.1) ∧
    PyDict.get? (get_throttle_result (fun _ => (ACCEPT, "a", (37 : Int)))
        [("legacy_processing", Value.vstr "bogus"), ("throttle_rate", Value.vstr "50")]).2.1
        "throttle_rate" =
      some (Value.vint (get_throttle_result (fun _ => (ACCEPT, "a", (37 : Int)))
        [("legacy_processing", Value.vstr "bogus"),
         ("throttle_rate", Value.vstr "50")]).1.2.2)) ∧
    (get_throttle_result (fun _ => (ACCEPT, "a", (37 : Int)))
        [("legacy_processing", Value.vstr "0"), ("throttle_rate", Value.vstr "50")]).2.1 =
      [("legacy_processing", Value.vstr "0"), ("throttle_rate", Value.vstr "50")] :=
  ⟨(c8_writeback (fun _ => (ACCEPT, "a", (37 : Int)))
      [("legacy_processing", Value.vstr "bogus"), ("throttle_rate", Value.vstr "50")]).1
    (by decide),
   (c8_writeback (fun _ => (ACCEPT, "a", (37 : Int)))
      [("legacy_processing", Value.vstr "0"), ("throttle_rate", Value.vstr "50")]).2
    (ACCEPT, 50) (by decide)⟩

/-! ### Claims C6 and C7: gzip handling -/

theorem extract_gzip_events (ext : Deps) (req : Req)
    (h1 : ¬(req.content_type.getD "") = "")
    (h2 : ctShapeOk (req.content_type.getD "") = true)
    (h3 : ¬req.content_length.getD 0 = 0)
    (h4 : req.content_encoding = some "gzip") :
    (ext.gunzip (req.body.take (req.content_length.getD 0)) = none →
      extract_payload ext req = (some ([], []),
        [Event.incr "gzipped_crash", Event.incr "bad_gzipped_crash"])) ∧
    (∀ d, ext.gunzip (req.body.take (req.content_length.getD 0)) = some d →
      extract_payload ext req =
        (processItems ext.md5_hex (ext.parseForm d) [] [],
         [Event.incr "gzipped_crash",
          Event.histogram "crash_size.compressed" d.length])) := by
  unfold extract_payload
  rw [if_neg h1, h2]
  rw [if_neg (by decide : ¬((!true) = true))]
  dsimp only
  rw [if_neg h3, if_pos h4]
  constructor
  · intro hg
    rw [hg]
  · intro d hg
    rw [hg]

/-- C6 (amended): for every request that reaches the decompression stage (well-formed
content type, nonzero length, `Content-Encoding: gzip`), the counter `gzipped_crash` is
incremented exactly once regardless of the outcome — the source bumps it before
attempting decompression — while `bad_gzipped_crash` is incremented exactly when
decompression fails (so a bad gzip body bumps both counters, not only
`bad_gzipped_crash`). -/
theorem c6_gzip_counters (ext : Deps) (req : Req)
    (h1 : ¬(req.content_type.getD "") = "")
    (h2 : ctShapeOk (req.content_type.getD "") = true)
    (h3 : ¬req.content_length.getD 0 = 0)
    (h4 : req.content_encoding = some "gzip") :
    (extract_payload ext req).2.count (Event.incr "gzipped_crash") = 1 ∧
    (ext.gunzip (req.body.take (req.content_length.getD 0)) = none →
      (extract_payload ext req).2.count (Event.incr "bad_gzipped_crash") = 1) ∧
    (∀ d, ext.gunzip (req.body.take (req.content_length.getD 0)) = some d →
      (extract_payload ext req).2.count (Event.incr "bad_gzipped_crash") = 0) := by
  obtain ⟨hfail, hok⟩ := extract_gzip_events ext req h1 h2 h3 h4
  refine ⟨?_, ?_, ?_⟩
  · rcases hg : ext.gunzip (req.body.take (req.content_length.getD 0)) with _ | d
    · rw [hfail hg]
      decide
    · rw [hok d hg]
      simp [List.count_cons]
  · intro hg
    rw [hfail hg]
    decide
  · intro d hg
    rw [hok d hg]
    simp [List.count_cons]

/-- C6 counterexample: a gzip-declared request with a junk body (spec scenario S3) bumps
`gzipped_crash` as well: decompression fails yet `gzipped_crash` is still incremented
once, refuting the claim that it is incremented exactly when decompression succeeds. -/
theorem c6_counterexample :
    extDemo.gunzip (reqBadGz.body.take (reqBadGz.content_length.getD 0)) = none ∧
    (extract_payload extDemo reqBadGz).2 =
      [Event.incr "gzipped_crash", Event.incr "bad_gzipped_crash"] ∧
    (extract_payload extDemo reqBadGz).2.count (Event.incr "gzipped_crash") = 1 :=
  ⟨by decide, by decide, by decide⟩

/-- C6 witness: the amended theorem applied to the concrete junk-gzip request and to the
concrete well-formed gzip request. -/
theorem c6_witness :
    (extract_payload extDemo reqBadGz).2.count (Event.incr "gzipped_crash") = 1 ∧
    (extract_payload extDemo reqBadGz).2.count (Event.incr "bad_gzipped_crash") = 1 ∧
    (extract_payload extDemo reqGz).2.count (Event.incr "bad_gzipped_crash") = 0 :=
  ⟨(c6_gzip_counters extDemo reqBadGz (by decide) (by decide) (by decide) (by decide)).1,
   (c6_gzip_counters extDemo reqBadGz (by decide) (by decide) (by decide) (by decide)).2.1
     (by decide),
   (c6_gzip_counters extDemo reqGz (by decide) (by decide) (by decide) (by decide)).2.2
     helloBytes (by decide)⟩

/-- C7 (amended): when a gzip body decompresses successfully, the
`crash_size.compressed` histogram sample records the length of the **decompressed**
payload (the content length substituted for the multipart parser), not the compressed
on-the-wire length: line 228 reassigns `content_length = len(data)` before the
histogram call on line 231. -/
theorem c7_compressed_histogram (ext : Deps) (req : Req) (d : List Nat)
    (h1 : ¬(req.content_type.getD "") = "")
    (h2 : ctShapeOk (req.content_type.getD "") = true)
    (h3 : ¬req.content_length.getD 0 = 0)
    (h4 : req.content_encoding = some "gzip")
    (hg : ext.gunzip (req.body.take (req.content_length.getD 0)) = some d) :
    (extract_payload ext req).2 =
      [Event.incr "gzipped_crash", Event.histogram "crash_size.compressed" d.length] :=
  congrArg Prod.snd ((extract_gzip_events ext req h1 h2 h3 h4).2 d hg)

/-- C7 counterexample: a genuine 25-byte gzip body decompressing to 5 bytes records the
histogram sample `5` (the decompressed length); no sample with the on-the-wire length
`25` is emitted, so the claim that the sample equals the compressed length fails. -/
theorem c7_counterexample :
    reqGz.body.length = 25 ∧ reqGz.content_length = some 25 ∧
    (extract_payload extDemo reqGz).2 =
      [Event.incr "gzipped_crash", Event.histogram "crash_size.compressed" 5] ∧
    Event.histogram "crash_size.compressed" 25 ∉ (extract_payload extDemo reqGz).2 :=
  ⟨by decide, by decide, by decide, by decide⟩

/-- C7 witness: the amended theorem applied to the concrete gzip request. -/
theorem c7_witness :
    (extract_payload extDemo reqGz).2 =
      [Event.incr "gzipped_crash",
       Event.histogram "crash_size.compressed" helloBytes.length] :=
  c7_compressed_histogram extDemo reqGz helloBytes (by decide) (by decide) (by decide)
    (by decide) (by decide)

/-! ### Claims C4 and C9: the save pipeline -/

theorem save_calls_head (st : Storage) (r : CrashReport) :
    (save_crash_to_storage st r).2.1.head? =
      some (SCall.saveDumps r.crash_id r.dumps) := by
  unfold save_crash_to_storage
  by_cases hd : st.save_dumps_ok r.crash_id r.dumps
  · rw [if_pos hd]
    by_cases hr : st.save_raw_ok r.crash_id r.raw_crash
    · rw [if_pos hr]
      rfl
    · rw [if_neg hr]
      rfl
  · rw [if_neg hd]
    rfl

theorem save_calls_eq (st : Storage) (r : CrashReport) :
    (save_crash_to_storage st r).2.1 =
      if st.save_dumps_ok r.crash_id r.dumps then
        [SCall.saveDumps r.crash_id r.dumps, SCall.saveRawCrash r.crash_id r.raw_crash]
      else [SCall.saveDumps r.crash_id r.dumps] := by
  unfold save_crash_to_storage
  by_cases hd : st.save_dumps_ok r.crash_id r.dumps
  · rw [if_pos hd, if_pos hd]
    by_cases hr : st.save_raw_ok r.crash_id r.raw_crash
    · rw [if_pos hr]
    · rw [if_neg hr]
  · rw [if_neg hd, if_neg hd]

theorem processStep_cons_calls (st : Storage) (r : CrashReport)
    (tail : List CrashReport) :
    (processStep st ⟨r :: tail⟩).2.1.head? =
      some (SCall.saveDumps r.crash_id r.dumps) := by
  unfold processStep SaveQueue.next
  dsimp only
  split <;> exact save_calls_head st r

theorem processStep_cons_queue (st : Storage) (r : CrashReport)
    (tail : List CrashReport) :
    (processStep st ⟨r :: tail⟩).1 =
      if (save_crash_to_storage st r).1 then ⟨tail⟩ else ⟨tail ++ [r]⟩ := by
  unfold processStep SaveQueue.next
  dsimp only
  split
  case isTrue h => rfl
  case isFalse h => rfl

/-- C4 (confirmed): `save_crash_to_storage` calls `save_dumps` first and
`save_raw_crash` only after it succeeds; whenever either call raises, the drain loop
re-enqueues the same report at the tail of the queue; in particular, after a
`save_dumps` success followed by a `save_raw_crash` failure the report returns to the
tail, and whichever later iteration dequeues it calls `save_dumps` again. -/
theorem c4_save_order_and_retry (st : Storage) (r : CrashReport)
    (rest : List CrashReport) :
    ((save_crash_to_storage st r).2.1 =
      if st.save_dumps_ok r.crash_id r.dumps then
        [SCall.saveDumps r.crash_id r.dumps, SCall.saveRawCrash r.crash_id r.raw_crash]
      else [SCall.saveDumps r.crash_id r.dumps]) ∧
    ((save_crash_to_storage st r).1 = false →
      (processStep st ⟨r :: rest⟩).1 = ⟨rest ++ [r]⟩) ∧
    (st.save_dumps_ok r.crash_id r.dumps = true →
      st.save_raw_ok r.crash_id r.raw_crash = false →
      (save_crash_to_storage st r).2.1 =
        [SCall.saveDumps r.crash_id r.dumps,
         SCall.saveRawCrash r.crash_id r.raw_crash] ∧
      (processStep st ⟨r :: rest⟩).1 = ⟨rest ++ [r]⟩ ∧
      ∀ rest2 : List CrashReport,
        (processStep st ⟨r :: rest2⟩).2.1.head? =
          some (SCall.saveDumps r.crash_id r.dumps)) := by
  have hfailq : (save_crash_to_storage st r).1 = false →
      (processStep st ⟨r :: rest⟩).1 = ⟨rest ++ [r]⟩ := by
    intro hfail
    rw [processStep_cons_queue, hfail]
    rfl
  refine ⟨save_calls_eq st r, hfailq, ?_⟩
  intro hd hr
  have hfail : (save_crash_to_storage st r).1 = false := by
    unfold save_crash_to_storage
    rw [if_pos hd, if_neg (by simp [hr])]
  refine ⟨?_, hfailq hfail, fun rest2 => processStep_cons_calls st r rest2⟩
  rw [save_calls_eq st r, if_pos hd]

/-- C4 witness: the composite retry scenario applied concretely — dumps save ok, raw
save raises, the report is re-enqueued at the tail and its next dequeue calls
`save_dumps` again. -/
theorem c4_witness :
    (save_crash_to_storage stRawFails repDemo).2.1 =
      [SCall.saveDumps repDemo.crash_id repDemo.dumps,
       SCall.saveRawCrash repDemo.crash_id repDemo.raw_crash] ∧
    (processStep stRawFails ⟨[repDemo]⟩).1 = ⟨[] ++ [repDemo]⟩ ∧
    (processStep stRawFails ⟨[repDemo]⟩).2.1.head? =
      some (SCall.saveDumps repDemo.crash_id repDemo.dumps) := by
  obtain ⟨h1, h2, h3⟩ :=
    (c4_save_order_and_retry stRawFails repDemo []).2.2 (by decide) (by decide)
  exact ⟨h1, h2, h3 []⟩

/-! ### Claim C9 -/

/-- C9 (confirmed): the save queue is FIFO — `add` appends at the tail, `next` removes
and returns the least-recently-added element or `none` on the empty queue — and a single
worker processing two consecutively queued reports issues their first `save_dumps` calls
in arrival order, whatever the storage outcomes are. -/
theorem c9_fifo_order :
    (∀ (q : SaveQueue) (r : CrashReport), (SaveQueue.add q r).queue = q.queue ++ [r]) ∧
    (∀ (r : CrashReport) (t : List CrashReport),
      SaveQueue.next ⟨r :: t⟩ = (some r, ⟨t⟩)) ∧
    (SaveQueue.next ⟨[]⟩ = (none, ⟨[]⟩)) ∧
    (∀ (st : Storage) (r1 r2 : CrashReport),
      (processStep st ⟨[r1, r2]⟩).2.1.head? =
        some (SCall.saveDumps r1.crash_id r1.dumps) ∧
      (processStep st (processStep st ⟨[r1, r2]⟩).1).2.1.head? =
        some (SCall.saveDumps r2.crash_id r2.dumps)) := by
  refine ⟨fun q r => rfl, fun r t => rfl, rfl, fun st r1 r2 =>
    ⟨processStep_cons_calls st r1 [r2], ?_⟩⟩
  rw [processStep_cons_queue]
  by_cases hb : (save_crash_to_storage st r1).1
  · rw [if_pos hb]
    exact processStep_cons_calls st r2 []
  · rw [if_neg hb]
    exact processStep_cons_calls st r2 [r1]

/-! ### Claim C5 -/

/-- C5 (confirmed): when the throttle decision of a POST is REJECT, the handler responds
`200 OK` with the literal body `Discarded=1`, nothing is enqueued (the queue is exactly
what it was), and the storage backend is never called for that report: any number of
drain-loop iterations after the POST performs exactly the storage calls it would have
performed on the untouched queue. -/
theorem c5_reject (ext : Deps) (idPre : String) (st_ now ent : Nat) (req : Req)
    (q : SaveQueue) (out : PostOut)
    (hp : on_post ext idPre st_ now ent req q = some out)
    (hd : out.decision = REJECT) :
    out.resp = ⟨200, "text/plain", "Discarded=1"⟩ ∧ out.queue = q ∧
    out.enqueued = none ∧
    ∀ (st : Storage) (n : Nat), drain st n out.queue = drain st n q := by
  obtain ⟨rc0, dumps, hE, hdec, hbr⟩ := on_post_char ext idPre st_ now ent req q out hp
  rcases hbr with ⟨_, hnone, hqe, hresp⟩ | ⟨hlp, _, _, _⟩
  · exact ⟨hresp, hqe, hnone, fun st n => by rw [hqe]⟩
  · exfalso
    apply hlp
    rw [postReport_lookup_other ext idPre st_ now ent rc0 dumps _ (by decide) (by decide)]
    rcases gtr_cases ext.throttle (rc1of ext st_ now rc0) with ⟨rt, ha, he⟩ | ⟨_, evts, he⟩
    · obtain ⟨hmem, -⟩ := tryAlready_some _ rt ha
      rw [he] at hdec
      dsimp only at hdec
      rw [hd] at hdec
      rcases hmem with h0 | h0 <;> rw [h0] at hdec <;> exact absurd hdec (by decide)
    · rw [he, throttleFresh_lookup_lp]
      rw [he] at hdec
      rw [← hdec, hd]

/-- C5 witness: the theorem applied to a concrete POST with a reject-everything
throttler. -/
theorem c5_witness :
    outRej.resp = ⟨200, "text/plain", "Discarded=1"⟩ ∧ outRej.queue = ⟨[]⟩ ∧
    outRej.enqueued = none ∧
    drain stRawFails 3 outRej.queue = drain stRawFails 3 ⟨[]⟩ := by
  obtain ⟨h1, h2, h3, h4⟩ :=
    c5_reject extReject "bp-" 1 2 3 reqDemo ⟨[]⟩ outRej (by decide) (by decide)
  exact ⟨h1, h2, h3, h4 stRawFails 3⟩

/-! ### Claim C10 -/

theorem setChecksum_get_ne (rc : Dict) (m chk : String) (k : String)
    (hk : k ≠ "dump_checksums") :
    PyDict.get? (setChecksum rc m chk) k = PyDict.get? rc k := by
  unfold setChecksum
  rcases hdc : PyDict.get? rc "dump_checksums" with _ | v
  · rw [PyDict.get?_set_ne _ _ _ _ (Ne.symm hk)]
  · rcases v with s | n | b | mm | t <;> simp only [hdc] <;>
      first
      | rfl
      | rw [PyDict.get?_set_ne _ _ _ _ (Ne.symm hk)]

theorem processItems_lookup_preserved (md5h : List Nat → String) (n : String)
    (hn : n ≠ "dump_checksums") :
    ∀ (items : List FSItem), (∀ it ∈ items, it.name ≠ n) →
      ∀ rc dumps out, processItems md5h items rc dumps = some out →
        PyDict.get? out.1 n = PyDict.get? rc n := by
  intro items
  induction items with
  | nil =>
    intro _ rc dumps out hp
    obtain rfl := Option.some.inj hp
    rfl
  | cons it rest ih =>
    intro hni rc dumps out hp
    have hrest : ∀ i ∈ rest, i.name ≠ n := fun i hi => hni i (List.mem_cons_of_mem it hi)
    have hit : it.name ≠ n := hni it (List.mem_cons_self it rest)
    unfold processItems at hp
    by_cases h1 : it.name = "dump_checksums"
    · rw [if_pos h1] at hp
      exact ih hrest rc dumps out hp
    · rw [if_neg h1] at hp
      by_cases h2 : isDumpItem it
      · rw [if_pos h2] at hp
        rcases hv : it.value with s | b <;> rw [hv] at hp
        · exact absurd hp (by simp)
        · rw [ih hrest _ _ out hp]
          exact setChecksum_get_ne rc it.name (md5h b) n hn
      · rw [if_neg h2] at hp
        rw [ih hrest _ _ out hp]
        exact PyDict.get?_set_ne _ _ _ _ hit

/-- C10 (confirmed): the payload walk keeps blank-valued text fields — a multipart text
part whose decoded value is the empty string (present in the item list because
`FieldStorage` is constructed with `keep_blank_values=1`) is stored as
`metadata[name] = ""` rather than dropped, provided no later part overwrites that name
(and the name is not the discarded `dump_checksums`). -/
theorem c10_blank_values (md5h : List Nat → String) (n : String) (t : Option String)
    (l1 l2 : List FSItem)
    (hn : n ≠ "dump_checksums")
    (ht : isDumpItem ⟨n, t, FSValue.text ""⟩ = false)
    (hl2 : ∀ it ∈ l2, it.name ≠ n) :
    ∀ rc dumps out,
      processItems md5h (l1 ++ ⟨n, t, FSValue.text ""⟩ :: l2) rc dumps = some out →
      PyDict.get? out.1 n = some (Value.vstr "") := by
  induction l1 with
  | nil =>
    intro rc dumps out hp
    rw [List.nil_append] at hp
    unfold processItems at hp
    rw [if_neg (by exact hn : ¬(FSItem.mk n t (FSValue.text "")).name = "dump_checksums")]
      at hp
    rw [if_neg (by rw [ht]; decide : ¬isDumpItem ⟨n, t, FSValue.text ""⟩ = true)] at hp
    rw [processItems_lookup_preserved md5h n hn l2 hl2 _ _ out hp]
    rw [show deNullValue (FSValue.text "") = Value.vstr "" from rfl]
    exact PyDict.get?_set_self ..
  | cons it l1' ih =>
    intro rc dumps out hp
    rw [List.cons_append] at hp
    unfold processItems at hp
    by_cases h1 : it.name = "dump_checksums"
    · rw [if_pos h1] at hp
      exact ih _ _ out hp
    · rw [if_neg h1] at hp
      by_cases h2 : isDumpItem it
      · rw [if_pos h2] at hp
        rcases hv : it.value with s | b <;> rw [hv] at hp
        · exact absurd hp (by simp)
        · exact ih _ _ out hp
      · rw [if_neg h2] at hp
        exact ih _ _ out hp

/-- C10 witness: the theorem applied to a concrete item list with a blank `EmptyField`
between an ordinary text field and a dump. -/
theorem c10_witness : PyDict.get? blankOut.1 "EmptyField" = some (Value.vstr "") :=
  c10_blank_values (fun b => "h" ++ toString b.length) "EmptyField" (some "text/plain")
    [⟨"ProductName", some "text/plain", FSValue.text "Firefox"⟩]
    [⟨"upload_file_minidump", some "application/octet-stream", FSValue.bytes [1]⟩]
    (by decide) (by decide) (by decide) [] [] blankOut (by decide)

/-! ### Claim C3 -/

theorem extract_malformed (ext : Deps) (req : Req)
    (hm : (req.content_type.getD "") = "" ∨
      ctShapeOk (req.content_type.getD "") = false ∨
      req.content_length.getD 0 = 0 ∨
      (req.content_encoding = some "gzip" ∧
        ext.gunzip (req.body.take (req.content_length.getD 0)) = none)) :
    (extract_payload ext req).1 = some ([], []) := by
  unfold extract_payload
  by_cases h1 : (req.content_type.getD "") = ""
  · rw [if_pos h1]
  · rw [if_neg h1]
    by_cases h2 : ctShapeOk (req.content_type.getD "")
    · rw [h2, if_neg (by decide : ¬((!true) = true))]
      dsimp only
      by_cases h3 : req.content_length.getD 0 = 0
      · rw [if_pos h3]
      · rw [if_neg h3]
        rcases hm with hc | hc | hc | ⟨hg, hgz⟩
        · exact absurd hc h1
        · rw [h2] at hc
          exact absurd hc (by decide)
        · exact absurd hc h3
        · rw [if_pos hg, hgz]
    · rw [Bool.not_eq_true] at h2
      rw [h2, if_pos (by decide : (!false) = true)]

theorem on_post_total (ext : Deps) (idPre : String) (st_ now ent : Nat) (req : Req)
    (q : SaveQueue) (pr : Dict × Dumps)
    (hE : (extract_payload ext req).1 = some pr) :
    ∃ out, on_post ext idPre st_ now ent req q = some out := by
  unfold on_post
  rcases hEp : extract_payload ext req with ⟨o, evts0⟩
  rw [hEp] at hE
  rcases o with _ | ⟨rc0, dumps⟩
  · exact absurd hE (by simp)
  dsimp only
  split
  · exact ⟨_, rfl⟩
  split
  · exact ⟨_, rfl⟩
  split
  · exact ⟨_, rfl⟩
  · exact ⟨_, rfl⟩

theorem postReport_empty (ext : Deps) (idPre : String) (st_ now ent : Nat) :
    postReport ext idPre st_ now ent [] [] =
      ⟨[("submitted_timestamp", Value.vstr (ext.iso now)),
        ("timestamp", Value.vtime st_),
        ("legacy_processing", Value.vint
          (ext.throttle [("submitted_timestamp", Value.vstr (ext.iso now)),
            ("timestamp", Value.vtime st_)]).1),
        ("throttle_rate", Value.vint
          (ext.throttle [("submitted_timestamp", Value.vstr (ext.iso now)),
            ("timestamp", Value.vtime st_)]).2.2),
        ("uuid", Value.vstr (create_crash_id ent now
          (ext.throttle [("submitted_timestamp", Value.vstr (ext.iso now)),
            ("timestamp", Value.vtime st_)]).1)),
        ("type_tag", Value.vstr (pyStrip idPre '-'))],
       [],
       Value.vstr (create_crash_id ent now
        (ext.throttle [("submitted_timestamp", Value.vstr (ext.iso now)),
          ("timestamp", Value.vtime st_)]).1)⟩ := rfl

theorem gtr_empty_decision (ext : Deps) (st_ now : Nat) :
    (get_throttle_result ext.throttle (rc1of ext st_ now [])).1.1 =
      (ext.throttle [("submitted_timestamp", Value.vstr (ext.iso now)),
        ("timestamp", Value.vtime st_)]).1 := rfl

/-- C3 (amended): a malformed POST (missing/empty Content-Type, wrong content-type
shape, missing or zero Content-Length, or failed gzip decompression) parses to the
empty pair and — provided the throttler does not REJECT the resulting skeleton crash —
is answered `200 OK` with body `CrashID=<prefix><id>\n` carrying a freshly generated id.
The report that goes through the pipeline has an empty dumps map, but its metadata map
is *not* empty: it holds exactly the six core-written keys (`submitted_timestamp`,
`timestamp`, `legacy_processing`, `throttle_rate`, `uuid`, `type_tag`) and nothing from
the client. -/
theorem c3_malformed (ext : Deps) (idPre : String) (st_ now ent : Nat) (req : Req)
    (q : SaveQueue)
    (hm : (req.content_type.getD "") = "" ∨
      ctShapeOk (req.content_type.getD "") = false ∨
      req.content_length.getD 0 = 0 ∨
      (req.content_encoding = some "gzip" ∧
        ext.gunzip (req.body.take (req.content_length.getD 0)) = none))
    (hd : (ext.throttle [("submitted_timestamp", Value.vstr (ext.iso now)),
        ("timestamp", Value.vtime st_)]).1 ≠ REJECT) :
    ∃ out, on_post ext idPre st_ now ent req q = some out ∧
      out.decision = (ext.throttle [("submitted_timestamp", Value.vstr (ext.iso now)),
        ("timestamp", Value.vtime st_)]).1 ∧
      out.resp.status = 200 ∧
      out.resp.body = "CrashID=" ++ idPre ++
        create_crash_id ent now
          (ext.throttle [("submitted_timestamp", Value.vstr (ext.iso now)),
            ("timestamp", Value.vtime st_)]).1 ++ "\n" ∧
      out.enqueued = some (postReport ext idPre st_ now ent [] []) ∧
      (postReport ext idPre st_ now ent [] []).dumps = [] ∧
      (postReport ext idPre st_ now ent [] []).raw_crash.map Prod.fst =
        ["submitted_timestamp", "timestamp", "legacy_processing", "throttle_rate",
         "uuid", "type_tag"] ∧
      (postReport ext idPre st_ now ent [] []).crash_id =
        Value.vstr (create_crash_id ent now
          (ext.throttle [("submitted_timestamp", Value.vstr (ext.iso now)),
            ("timestamp", Value.vtime st_)]).1) := by
  have hE := extract_malformed ext req hm
  obtain ⟨out, hp⟩ := on_post_total ext idPre st_ now ent req q ([], []) hE
  obtain ⟨rc0, dumps, hE', hdec, hbr⟩ := on_post_char ext idPre st_ now ent req q out hp
  have hpr := Option.some.inj (hE.symm.trans hE')
  obtain ⟨rfl, rfl⟩ : rc0 = [] ∧ dumps = [] :=
    ⟨(congrArg Prod.fst hpr).symm, (congrArg Prod.snd hpr).symm⟩
  have hdec' : out.decision =
      (ext.throttle [("submitted_timestamp", Value.vstr (ext.iso now)),
        ("timestamp", Value.vtime st_)]).1 :=
    hdec.trans (gtr_empty_decision ext st_ now)
  rcases hbr with ⟨hlp, _, _, _⟩ | ⟨hlp, hsome, hqe, hresp⟩
  · exfalso
    rw [postReport_empty] at hlp
    have h2 := Option.some.inj hlp
    injection h2 with h3
    exact hd h3
  · refine ⟨out, hp, hdec', ?_, ?_, hsome, rfl, ?_, rfl⟩
    · rw [hresp]
    · rw [hresp, postReport_empty]
      rfl
    · rw [postReport_empty]
      rfl

/-- C3 counterexample: on a POST with no Content-Type header the enqueued report's
metadata map is not empty (it already carries the six core-written keys), so the claim
that "the report that goes through the pipeline has an empty metadata map" fails as
stated. -/
theorem c3_counterexample :
    (on_post extDemo "bp-" 1 2 3 reqNoCT ⟨[]⟩).map
        (fun out => out.enqueued.map (fun r => (r.raw_crash.isEmpty, r.dumps))) =
      some (some (false, [])) ∧ false ≠ true :=
  ⟨by decide, by decide⟩

/-- C3 witness: the amended theorem applied to the concrete request with no
Content-Type header. -/
theorem c3_witness :
    ∃ out, on_post extDemo "bp-" 1 2 3 reqNoCT ⟨[]⟩ = some out ∧
      out.decision = (extDemo.throttle [("submitted_timestamp",
        Value.vstr (extDemo.iso 2)), ("timestamp", Value.vtime 1)]).1 ∧
      out.resp.status = 200 ∧
      out.resp.body = "CrashID=" ++ "bp-" ++
        create_crash_id 3 2
          (extDemo.throttle [("submitted_timestamp", Value.vstr (extDemo.iso 2)),
            ("timestamp", Value.vtime 1)]).1 ++ "\n" ∧
      out.enqueued = some (postReport extDemo "bp-" 1 2 3 [] []) ∧
      (postReport extDemo "bp-" 1 2 3 [] []).dumps = [] ∧
      (postReport extDemo "bp-" 1 2 3 [] []).raw_crash.map Prod.fst =
        ["submitted_timestamp", "timestamp", "legacy_processing", "throttle_rate",
         "uuid", "type_tag"] ∧
      (postReport extDemo "bp-" 1 2 3 [] []).crash_id =
        Value.vstr (create_crash_id 3 2
          (extDemo.throttle [("submitted_timestamp", Value.vstr (extDemo.iso 2)),
            ("timestamp", Value.vtime 1)]).1) :=
  c3_malformed extDemo "bp-" 1 2 3 reqNoCT ⟨[]⟩ (Or.inl (by decide)) (by decide)
